import Mathlib

/-!
Verification development for the cookiecutter generation engine
(`cookiecutter/generate.py`).

The Python module is shallowly embedded as executable Lean definitions:

* the filesystem is an explicit state `FS` (a current working directory,
  a list of directory paths, an association list of file paths to file
  data, and a table of executable hook scripts with their exit codes);
* every Python function of `generate.py` becomes a Lean function of the
  same name that threads the `FS` state explicitly and models raised
  exceptions with `Except PyErr`;
* the external collaborators that `generate.py` calls are modelled by the
  behaviour the module actually configures: the jinja2 default
  `Environment`/`Template` render service (variable substitution in which
  an undefined variable renders as the empty string, a single trailing
  newline of the template source is stripped, and an unclosed variable
  marker is a template-syntax error), the `json`/`yaml` ordered-mapping
  loaders (modelled for the flat scalar mappings cookiecutter context
  files of this era use), and `binaryornot`'s content inspection (a NUL
  byte in the leading chunk classifies a file as binary);
* `find.py`, `hooks.py` and `utils.py` are not part of the given source
  tree; the definitions taken from them (`find_template`, `run_hook`,
  `make_sure_path_exists`, `work_in`) are modelled from the specification
  and marked as such in their doc comments.
-/

set_option autoImplicit false

namespace Cookiecutter

/-! ## Context data model

`generate_context` loads an ordered mapping (Python `OrderedDict`) from a
JSON or YAML file.  Values are text, numbers, booleans, null, or nested
mappings/sequences. -/

/-- Value of one context variable: the JSON/YAML data model used by
cookiecutter context files (text, integer, boolean, null, nested mapping
or sequence). -/
inductive Value where
  | str (s : String)
  | num (n : Int)
  | bool (b : Bool)
  | null
  | obj (fields : List (String × Value))
  | arr (elems : List Value)

/-- A context: an insertion-ordered mapping from variable names to values,
modelling Python's `OrderedDict`. -/
abbrev Ctx := List (String × Value)

/-- First-occurrence lookup in an association list, modelling Python
mapping indexing (an `OrderedDict` holds each key at most once). -/
def lookupKey {α : Type} : List (String × α) → String → Option α
  | [], _ => none
  | (k, v) :: rest, key => if k = key then some v else lookupKey rest key

/-- Set one key of an ordered mapping, modelling `OrderedDict.__setitem__`:
an existing key keeps its position and gets the new value, a new key is
appended at the end. -/
def setKey {α : Type} : List (String × α) → String → α → List (String × α)
  | [], k, v => [(k, v)]
  | (k', v') :: rest, k, v =>
      if k' = k then (k', v) :: rest else (k', v') :: setKey rest k v

/-- Shallow per-key overwrite, modelling `dict.update`: each key of `o`
replaces the whole value stored in `c` for that key (no deep merge). -/
def updateDict {α : Type} (c o : List (String × α)) : List (String × α) :=
  o.foldl (fun acc kv => setKey acc kv.1 kv.2) c

/-! ## Character and string helpers

All character-level work is done on `List Char` with structural recursion
so that every definition evaluates by kernel reduction. -/

/-- Whitespace characters recognised when trimming and when skipping
JSON/YAML layout. -/
def isWsChar (c : Char) : Bool :=
  c = ' ' || c = '\t' || c = '\n' || c = '\r'

/-- Trim leading and trailing whitespace from a character list (used for
jinja2 variable names and YAML scalars). -/
def trimL (cs : List Char) : List Char :=
  ((cs.dropWhile isWsChar).reverse.dropWhile isWsChar).reverse

/-- Split a character list on a separator character; always returns at
least one (possibly empty) chunk, like Python `str.split(sep)`. -/
def splitOnChar (sep : Char) : List Char → List (List Char)
  | [] => [[]]
  | x :: rest =>
      let r := splitOnChar sep rest
      if x = sep then [] :: r
      else
        match r with
        | [] => [[x]]
        | h :: t => (x :: h) :: t

/-- Last character of a character list, if any. -/
def lastChar : List Char → Option Char
  | [] => none
  | [c] => some c
  | _ :: rest => lastChar rest

/-- Substring test on character lists (`pat` occurs somewhere in the
second argument), modelling Python's `in` operator on strings. -/
def hasSubstrL (pat : List Char) : List Char → Bool
  | [] => pat.isEmpty
  | c :: rest => pat.isPrefixOf (c :: rest) || hasSubstrL pat rest

/-- Substring test on strings, modelling Python's `pat in s`. -/
def hasSubstr (pat s : String) : Bool :=
  hasSubstrL pat.data s.data

/-! ## Path manipulation (`os.path`)

Paths are plain strings with `/` as separator (the POSIX behaviour of
`os.path`). -/

/-- Whether a path is absolute (`os.path.isabs` on POSIX). -/
def isAbsPath (p : String) : Bool :=
  match p.data with
  | '/' :: _ => true
  | _ => false

/-- Two-argument `os.path.join` on POSIX: an absolute second component
discards the first, otherwise the components are joined with `/`. -/
def joinPath (a b : String) : String :=
  if isAbsPath b then b
  else if a = "" then b
  else if lastChar a.data = some '/' then a ++ b
  else a ++ "/" ++ b

/-- One step of `os.path.normpath`'s `..` resolution: `stack` holds the
already-kept components in reverse order. -/
def dotStep (isAbs : Bool) (stack : List (List Char)) (comp : List Char) :
    List (List Char) :=
  if comp = ['.', '.'] then
    match stack with
    | [] => if isAbs then [] else [comp]
    | top :: rest => if top = ['.', '.'] then comp :: stack else rest
  else comp :: stack

/-- `os.path.normpath` on POSIX: drops empty and `.` components, resolves
`..` textually, keeps a single leading `/` for absolute paths. -/
def normpath (p : String) : String :=
  if p = "" then "." else
  let abs := isAbsPath p
  let comps := (splitOnChar '/' p.data).filter (fun c => c ≠ [] ∧ c ≠ ['.'])
  let comps' := (comps.foldl (dotStep abs) []).reverse
  let body := List.intercalate ['/'] comps'
  if abs then String.mk ('/' :: body)
  else if comps' = [] then "." else String.mk body

/-- `os.path.basename`: the part after the final `/`. -/
def basename (p : String) : String :=
  String.mk ((splitOnChar '/' p.data).getLastD [])

/-- `os.path.dirname`: the part before the final `/` (`""` when there is
no separator, `"/"` for a direct child of the root). -/
def parentDir (p : String) : String :=
  let cs := (splitOnChar '/' p.data).dropLast
  if cs = [] then ""
  else if cs = [[]] then "/"
  else String.mk (List.intercalate ['/'] cs)

/-- Index of the last `.` in a character list, if any. -/
def lastDotIdx : List Char → Option Nat
  | [] => none
  | c :: rest =>
      match lastDotIdx rest with
      | some i => some (i + 1)
      | none => if c = '.' then some 0 else none

/-- `os.path.splitext` applied to a basename: splits off the extension at
the last dot, except that a name consisting only of leading dots before
that dot has no extension (CPython's rule, so `".json"` has stem
`".json"` and empty extension). -/
def splitextName (s : String) : String × String :=
  let cs := s.data
  match lastDotIdx cs with
  | none => (s, "")
  | some i =>
      if (cs.take i).all (fun c => c = '.') then (s, "")
      else (String.mk (cs.take i), String.mk (cs.drop i))

/-- `os.path.abspath` relative to an explicit current working directory:
`normpath(join(cwd, p))`. -/
def abspathStr (cwd p : String) : String :=
  normpath (joinPath cwd p)

/-- Every ancestor of an absolute normalized path, shortest first and
including the path itself: the directories `os.makedirs` creates. -/
def ancestorPaths (p : String) : List String :=
  let comps := (splitOnChar '/' p.data).filter (fun c => c ≠ [])
  (List.range comps.length).map
    (fun i => String.mk ('/' :: List.intercalate ['/'] (comps.take (i + 1))))

/-! ## Errors

The exceptions the Python code can raise.  `contextLoadError` is the
unified error class named by the specification; it is modelled from the
spec for comparison and is never raised by the embedded code, which
raises the underlying exception instead. -/

/-- Exceptions raised by the embedded code.  `fileNotFound` models
`IOError`/`OSError` from `open`/`shutil`; `jsonParseError` and
`yamlParseError` model `ValueError`/`yaml.YAMLError`; `templateParseError`
models jinja2's `TemplateSyntaxError`; `hookFailed` models a hook script
exiting nonzero.  `contextLoadError` is modelled from the spec: the
spec's unified `ContextLoadError` class, which has no counterpart in the
source. -/
inductive PyErr where
  | fileNotFound (path : String)
  | jsonParseError
  | yamlParseError
  | templateParseError
  | hookFailed (name : String) (exitCode : Nat)
  | nonTemplatedInputDir
  | contextLoadError
  deriving DecidableEq

/-- Whether an `Except` result is a success. -/
def exIsOk {ε α : Type} : Except ε α → Bool
  | .ok _ => true
  | .error _ => false

/-! ## Filesystem model -/

/-- Content and permission bits of one file.  Content is a character
string (binary payloads are byte values embedded as characters); `mode`
is the permission bits (e.g. `420` for `0o644`). -/
structure FileData where
  content : String
  mode : Nat
  deriving DecidableEq

/-- Filesystem state: current working directory (an absolute path), the
set of directories (absolute paths, in creation/listing order), the files
(absolute path to data, in listing order), and the executable hook
scripts (absolute path to the exit code the script would return).
Directory-listing order is the list order, modelling the accepted
nondeterminism of the underlying listing API. -/
structure FS where
  cwd : String
  dirs : List String
  files : List (String × FileData)
  hookExit : List (String × Nat)
  deriving DecidableEq

/-- Whether a directory exists (the root `/` always exists). -/
def dirExistsFS (fs : FS) (d : String) : Bool :=
  d = "/" || fs.dirs.contains d

/-- Read a file at an absolute path. -/
def readFile (fs : FS) (p : String) : Option FileData :=
  lookupKey fs.files p

/-- `os.path.exists` for a possibly relative path. -/
def fsExists (fs : FS) (p : String) : Bool :=
  fs.dirs.contains (abspathStr fs.cwd p) ||
    (lookupKey fs.files (abspathStr fs.cwd p)).isSome

/-- Record a directory as existing (idempotent, appends in creation
order). -/
def addDir (fs : FS) (d : String) : FS :=
  if fs.dirs.contains d then fs else { fs with dirs := fs.dirs ++ [d] }

/-- Modelled from the spec: `utils.make_sure_path_exists` (utils.py is
not under src/) — "creates the resulting directory and all missing
intermediate ancestors; a pre-existing directory at that path is not an
error" (`os.makedirs` with `EEXIST` tolerated). -/
def make_sure_path_exists (fs : FS) (d : String) : FS :=
  (ancestorPaths (abspathStr fs.cwd d)).foldl addDir fs

/-- Replace a file's content in place keeping its mode, or create the
file with the process-default permission bits `420` (`0o644`), modelling
`open(path, "w")` followed by a write. -/
def setFileEntry : List (String × FileData) → String → String →
    List (String × FileData)
  | [], p, c => [(p, ⟨c, 420⟩)]
  | (q, d) :: rest, p, c =>
      if q = p then (q, ⟨c, d.mode⟩) :: rest
      else (q, d) :: setFileEntry rest p c

/-- Replace a file's permission bits in place (no-op when absent). -/
def setModeEntry : List (String × FileData) → String → Nat →
    List (String × FileData)
  | [], _, _ => []
  | (p, d) :: rest, q, m =>
      if p = q then (p, { d with mode := m }) :: rest
      else (p, d) :: setModeEntry rest q m

/-- Write `content` to the file at absolute path `p`.  Like Python's
`open(p, "w")`, this fails when the parent directory does not exist. -/
def writeFileFS (fs : FS) (p content : String) : Except PyErr FS :=
  if dirExistsFS fs (parentDir p) then
    .ok { fs with files := setFileEntry fs.files p content }
  else .error (.fileNotFound p)

/-- `shutil.copymode(src, dst)`: copy the permission bits of `src` onto
`dst` (both must exist). -/
def copymodeFS (fs : FS) (src dst : String) : Except PyErr FS :=
  match lookupKey fs.files src with
  | none => .error (.fileNotFound src)
  | some sfd =>
      match lookupKey fs.files dst with
      | none => .error (.fileNotFound dst)
      | some _ => .ok { fs with files := setModeEntry fs.files dst sfd.mode }

/-! ## Render service

`generate.py` renders every path and every text file through jinja2's
default `Environment`/`Template` (it sets no options: no strict
undefined, no `keep_trailing_newline`).  The model below reproduces the
behaviour that configuration gives to the variable-substitution fragment
the generator uses:

* `\x7b\x7b name \x7d\x7d` is replaced by the stringified context value of the
  trimmed name; a name absent from the context is jinja2's default
  `Undefined`, which stringifies to the empty string;
* one trailing newline of the template source is stripped
  (`keep_trailing_newline` defaults to `False`);
* an opening marker with no closing marker is a `TemplateSyntaxError`. -/

/-- Stringification of a context value as jinja2/Python `str()` produces
it for scalars (`True`/`False`/`None` in Python spelling).  Container
values are abbreviated: no generation path exercised by the claims
renders a container value. -/
def valueToString : Value → String
  | .str s => s
  | .num n => toString n
  | .bool b => if b then "True" else "False"
  | .null => "None"
  | .obj _ => "OrderedDict([...])"
  | .arr _ => "[...]"

/-- Scan for the closing `\x7d\x7d` of a variable expression: returns the
characters before it and the characters after it, or `none` when the
marker is never closed. -/
def splitVar : List Char → Option (List Char × List Char)
  | [] => none
  | c :: rest =>
      if c = '}' then
        match rest with
        | r :: rest' =>
            if r = '}' then some ([], rest')
            else (splitVar rest).map (fun p => (c :: p.1, p.2))
        | [] => (splitVar rest).map (fun p => (c :: p.1, p.2))
      else (splitVar rest).map (fun p => (c :: p.1, p.2))

/-- Drop a single trailing newline from the template source, modelling
the jinja2 default `keep_trailing_newline = False`. -/
def stripNL (cs : List Char) : List Char :=
  if cs.getLast? = some '\n' then cs.dropLast else cs

/-- Core of the render service, fuelled for structural recursion (the
fuel is initialised to the source length, which every recursive call
strictly stays below, so the zero-fuel branch is unreachable).  Literal
characters pass through; `\x7b\x7b` opens a variable expression whose trimmed
name is looked up in the context, an absent name rendering as the empty
string; an unclosed `\x7b\x7b` is a template-syntax error. -/
def renderAux (ctx : Ctx) : Nat → List Char → Except PyErr (List Char)
  | _, [] => .ok []
  | fuel + 1, c :: rest =>
      if c = '{' then
        match rest with
        | c' :: rest2 =>
            if c' = '{' then
              match splitVar rest2 with
              | none => .error .templateParseError
              | some (name, rest') =>
                  match renderAux ctx fuel rest' with
                  | .error e => .error e
                  | .ok tail =>
                      .ok ((match lookupKey ctx (String.mk (trimL name)) with
                            | some v => (valueToString v).data
                            | none => []) ++ tail)
            else
              match renderAux ctx fuel rest with
              | .error e => .error e
              | .ok tail => .ok (c :: tail)
        | [] =>
            match renderAux ctx fuel rest with
            | .error e => .error e
            | .ok tail => .ok (c :: tail)
      else
        match renderAux ctx fuel rest with
        | .error e => .error e
        | .ok tail => .ok (c :: tail)
  | 0, _ :: _ => .error .templateParseError

/-- The opaque render service `render(template, context)` as configured
by `generate.py`: jinja2 `Template(s).render(**context)` under the
default environment. -/
def render (ctx : Ctx) (s : String) : Except PyErr String :=
  let cs := stripNL s.data
  match renderAux ctx cs.length cs with
  | .error e => .error e
  | .ok out => .ok (String.mk out)

/-! ## Binary classification

`binaryornot.check.is_binary` inspects the file's content (its leading
chunk), not its name; the decisive signal is a NUL byte. -/

/-- Content inspection modelling `binaryornot.check.is_binary`: a NUL
byte in the leading 1024-character chunk classifies the content as
binary. -/
def is_binary (content : String) : Bool :=
  (content.data.take 1024).contains '\x00'

/-! ## Data-source adapters (JSON / YAML)

`generate_context` loads context files with
`json.load(..., object_pairs_hook=OrderedDict)` or with `ordered_load`
(`yaml.load` through a loader whose mapping constructor builds an
`OrderedDict` from the document's pairs).  The adapters are modelled for
the flat scalar mappings cookiecutter context files of this era use; the
`OrderedDict` pair hook is modelled by `updateDict []`, which keeps the
first position and the last value of a duplicated key. -/

/-- Skip JSON whitespace. -/
def skipWsL (cs : List Char) : List Char :=
  cs.dropWhile isWsChar

/-- Body of a JSON string literal after the opening quote: the unescaped
characters and the remainder after the closing quote. -/
def parseStrBody : List Char → Option (List Char × List Char)
  | [] => none
  | '"' :: rest => some ([], rest)
  | '\\' :: c :: rest =>
      let esc : Option Char :=
        if c = '"' then some '"'
        else if c = '\\' then some '\\'
        else if c = '/' then some '/'
        else if c = 'n' then some '\n'
        else if c = 't' then some '\t'
        else none
      match esc with
      | none => none
      | some e => (parseStrBody rest).map (fun p => (e :: p.1, p.2))
  | c :: rest => (parseStrBody rest).map (fun p => (c :: p.1, p.2))

/-- Decimal digits to a natural number. -/
def digitsVal (ds : List Char) : Nat :=
  ds.foldl (fun a c => a * 10 + (c.toNat - 48)) 0

/-- Parse a nonempty run of digits. -/
def parseNumNat (cs : List Char) : Option (Nat × List Char) :=
  let ds := cs.takeWhile Char.isDigit
  if ds.isEmpty then none else some (digitsVal ds, cs.dropWhile Char.isDigit)

/-- Parse a JSON integer (optional leading minus). -/
def parseNum : List Char → Option (Int × List Char)
  | '-' :: rest => (parseNumNat rest).map (fun p => (-(p.1 : Int), p.2))
  | cs => (parseNumNat cs).map (fun p => ((p.1 : Int), p.2))

/-- Parse one JSON scalar value (string, integer, boolean or null). -/
def parseScalar (cs : List Char) : Option (Value × List Char) :=
  match cs with
  | '"' :: rest => (parseStrBody rest).map (fun p => (.str (String.mk p.1), p.2))
  | 't' :: 'r' :: 'u' :: 'e' :: rest => some (.bool true, rest)
  | 'f' :: 'a' :: 'l' :: 's' :: 'e' :: rest => some (.bool false, rest)
  | 'n' :: 'u' :: 'l' :: 'l' :: rest => some (.null, rest)
  | _ => (parseNum cs).map (fun p => (.num p.1, p.2))

/-- Parse the members of a JSON object after the opening brace (at least
one member), fuelled by the input length. -/
def parseMembersF : Nat → List Char → Option (Ctx × List Char)
  | 0, _ => none
  | fuel + 1, cs =>
      match skipWsL cs with
      | '"' :: rest =>
          match parseStrBody rest with
          | none => none
          | some (key, rest2) =>
              match skipWsL rest2 with
              | ':' :: rest3 =>
                  match parseScalar (skipWsL rest3) with
                  | none => none
                  | some (v, rest4) =>
                      match skipWsL rest4 with
                      | ',' :: rest5 =>
                          (parseMembersF fuel rest5).map
                            (fun p => ((String.mk key, v) :: p.1, p.2))
                      | '}' :: rest5 => some ([(String.mk key, v)], rest5)
                      | _ => none
              | _ => none
      | _ => none

/-- Modelled data-source adapter for
`json.load(fh, object_pairs_hook=OrderedDict)` on the flat scalar
mappings used by cookiecutter context files: one top-level object of
scalar values.  Anything else is a parse error (`ValueError`), which the
source propagates unchanged. -/
def parseJson (s : String) : Except PyErr Ctx :=
  match skipWsL s.data with
  | '{' :: rest =>
      match skipWsL rest with
      | '}' :: rest2 =>
          if (skipWsL rest2).isEmpty then .ok [] else .error .jsonParseError
      | rest2 =>
          match parseMembersF (rest2.length + 1) rest2 with
          | some (pairs, rest3) =>
              if (skipWsL rest3).isEmpty then .ok (updateDict [] pairs)
              else .error .jsonParseError
          | none => .error .jsonParseError
  | _ => .error .jsonParseError

/-- Split a YAML line at its first colon. -/
def splitAtColon : List Char → Option (List Char × List Char)
  | [] => none
  | ':' :: rest => some ([], rest)
  | c :: rest => (splitAtColon rest).map (fun p => (c :: p.1, p.2))

/-- YAML scalar resolution for the flat mappings modelled here:
`true`/`false`, integers, otherwise a plain string. -/
def scalarOfText (cs : List Char) : Value :=
  if cs = "true".data then .bool true
  else if cs = "false".data then .bool false
  else
    match parseNum cs with
    | some (n, []) => .num n
    | _ => .str (String.mk cs)

/-- Parse one nonempty YAML mapping line `key: value` (an empty value is
YAML null). -/
def parseYamlLine (cs : List Char) : Option (String × Value) :=
  match splitAtColon cs with
  | none => none
  | some (before, after) =>
      let key := trimL before
      if key.isEmpty then none
      else
        let v := trimL after
        some (String.mk key, if v.isEmpty then .null else scalarOfText v)

/-- Parse every nonempty line of a YAML document as a mapping entry. -/
def parseYamlLines : List (List Char) → Option Ctx
  | [] => some []
  | l :: rest =>
      match parseYamlLine l with
      | none => none
      | some kv => (parseYamlLines rest).map (kv :: ·)

/-- Modelled data-source adapter for `ordered_load` (`yaml.load` through
the `OrderedDict`-building loader) on the flat scalar mappings used by
cookiecutter context files: one `key: value` entry per nonempty line.
Anything else is a parse error, which the source propagates unchanged. -/
def parseYaml (s : String) : Except PyErr Ctx :=
  let lines := (splitOnChar '\n' s.data).filter (fun l => ¬ (trimL l).isEmpty)
  match parseYamlLines lines with
  | some pairs => .ok (updateDict [] pairs)
  | none => .error .yamlParseError

/-! ## `generate_context` -/

/-- Body of `generate_context`'s `with open(context_file) ...` block: open
the resolved file (an absent file raises the IO error), then dispatch on
the extension computed by `os.path.splitext(os.path.basename(...))`:
`.json` and `.yml` are parsed, any other extension leaves the initial
empty context untouched. -/
def loadRaw (fs : FS) (cf : String) : Except PyErr Ctx :=
  match readFile fs (abspathStr fs.cwd cf) with
  | none => .error (.fileNotFound cf)
  | some fd =>
      let ext := (splitextName (basename cf)).2
      if ext = ".json" then parseJson fd.content
      else if ext = ".yml" then parseYaml fd.content
      else .ok []

/-- `generate_context(context_file=None, default_context=None)`.  The
argument defaults to `cookiecutter.json`; when the resolved file does not
exist but `cookiecutter.yml` does, the latter is used instead.  The file
is then loaded by extension (`loadRaw`) and a truthy `default_context`
(modelled as a nonempty list; Python's `None` and `\x7b\x7d` are both the
empty mapping here) is applied as a shallow `update`. -/
def generate_context (fs : FS) (context_file : Option String)
    (default_context : Ctx) : Except PyErr Ctx :=
  let cf := context_file.getD "cookiecutter.json"
  let cf := if !fsExists fs cf && fsExists fs "cookiecutter.yml" then
              "cookiecutter.yml" else cf
  match loadRaw fs cf with
  | .error e => .error e
  | .ok context =>
      .ok (if default_context.isEmpty then context
           else updateDict context default_context)

/-! ## `generate_file` -/

/-- `generate_file(project_dir, infile, context, env)`.  Renders the
infile path to the outfile path joined under `project_dir`, then either
copies a binary file verbatim (`shutil.copyfile`) or renders a text
file's content through the same render service and writes the result;
finally `shutil.copymode` copies the input's permission bits onto the
output.  `infile` is resolved against the current working directory (the
stated precondition is that the template root is the cwd, and the jinja2
`FileSystemLoader` is rooted at `"."`).  Returns the filesystem after
the side effects together with the outcome. -/
def generate_file (fs : FS) (project_dir infile : String) (ctx : Ctx) :
    FS × Except PyErr Unit :=
  match render ctx infile with
  | .error e => (fs, .error e)
  | .ok renderedName =>
      let outfile := joinPath project_dir renderedName
      match readFile fs (abspathStr fs.cwd infile) with
      | none => (fs, .error (.fileNotFound infile))
      | some fd =>
          let outAbs := abspathStr fs.cwd outfile
          if is_binary fd.content then
            match writeFileFS fs outAbs fd.content with
            | .error e => (fs, .error e)
            | .ok fs1 =>
                match copymodeFS fs1 (abspathStr fs.cwd infile) outAbs with
                | .error e => (fs1, .error e)
                | .ok fs2 => (fs2, .ok ())
          else
            match render ctx fd.content with
            | .error e => (fs, .error e)
            | .ok renderedContent =>
                match writeFileFS fs outAbs renderedContent with
                | .error e => (fs, .error e)
                | .ok fs1 =>
                    match copymodeFS fs1 (abspathStr fs.cwd infile) outAbs with
                    | .error e => (fs1, .error e)
                    | .ok fs2 => (fs2, .ok ())

/-! ## Directory creation and template-root validation -/

/-- `render_and_create_dir(dirname, context, output_dir)`: renders the
directory name, normalizes its join with `output_dir`, creates it (with
all missing ancestors) and returns its path. -/
def render_and_create_dir (fs : FS) (dirname : String) (ctx : Ctx)
    (output_dir : String) : FS × Except PyErr String :=
  match render ctx dirname with
  | .error e => (fs, .error e)
  | .ok rendered =>
      let dir_to_create := normpath (joinPath output_dir rendered)
      (make_sure_path_exists fs dir_to_create, .ok dir_to_create)

/-- `ensure_dir_is_templated(dirname)`: requires both `\x7b\x7b` and `\x7d\x7d` to
occur in the name, otherwise raises `NonTemplatedInputDirException` (the
spec's `NonTemplatedInputDirError`). -/
def ensure_dir_is_templated (dirname : String) : Except PyErr Unit :=
  if hasSubstr "\x7b\x7b" dirname && hasSubstr "\x7d\x7d" dirname then .ok ()
  else .error .nonTemplatedInputDir

/-! ## External collaborators modelled from the spec -/

/-- Modelled from the spec: `find.find_template(repo_dir)` (find.py is
not under src/) — the Template Locator lists the immediate children of
the repository root and yields the candidate template directory, assuming
the caller's naming convention provides one (disambiguation is out of
scope); marker validation is `ensure_dir_is_templated`'s job.  The model
takes the first child directory in listing order and joins it under
`repo_dir`; a repository with no child directory fails fatally. -/
def find_template (fs : FS) (repo_dir : String) : Except PyErr String :=
  let parent := abspathStr fs.cwd repo_dir
  match fs.dirs.filterMap (fun p =>
      let pre := (if lastChar parent.data = some '/' then parent.data
                  else parent.data ++ ['/'])
      if pre.isPrefixOf p.data then
        let rest := p.data.drop pre.length
        if rest.isEmpty then none
        else if rest.contains '/' then none
        else some (String.mk rest)
      else none) with
  | [] => .error .nonTemplatedInputDir
  | name :: _ => .ok (joinPath repo_dir name)

/-- Modelled from the spec: `hooks.run_hook(hook_name, project_dir)`
(hooks.py is not under src/) — looks for an executable script named
`hook_name` in the working directory `workdir` (the `with
work_in(repo_dir)` scope of the caller); an absent script is a no-op
success, a present script runs externally and a nonzero exit status is a
fatal `HookExecutionError` carrying the hook's name and exit status.  The
external script's own side effects are outside the model. -/
def run_hook (fs : FS) (workdir hook_name : String) : Except PyErr Unit :=
  match lookupKey fs.hookExit (abspathStr fs.cwd (joinPath workdir hook_name)) with
  | none => .ok ()
  | some code => if code = 0 then .ok () else .error (.hookFailed hook_name code)

/-! ## Tree walk (`os.walk`) -/

/-- Immediate child names of an absolute directory path, split into
subdirectory names and file names, in listing order. -/
def childNames (fs : FS) (d : String) : List String × List String :=
  let pre := if lastChar d.data = some '/' then d.data else d.data ++ ['/']
  let child := fun (p : String) =>
    if pre.isPrefixOf p.data then
      let rest := p.data.drop pre.length
      if rest.isEmpty then none
      else if rest.contains '/' then none
      else some (String.mk rest)
    else none
  (fs.dirs.filterMap child, fs.files.filterMap (fun e => child e.1))

/-- `os.walk(root)` (top-down): the `(root, dirs, files)` triples in
depth-first pre-order, with relative roots joined like `os.walk` joins
them.  Fuelled for structural recursion; the initial fuel
`fs.dirs.length + 1` exceeds any possible nesting depth, because each
level of descent consumes a distinct, strictly longer directory path of
`fs.dirs`. -/
def osWalkAux (fs : FS) : Nat → String → List (String × List String × List String)
  | 0, _ => []
  | fuel + 1, root =>
      let d := abspathStr fs.cwd root
      if dirExistsFS fs d then
        let (ds, fls) := childNames fs d
        (root, ds, fls) :: ds.flatMap (fun c => osWalkAux fs fuel (joinPath root c))
      else []

/-- `os.walk(".")` from the current working directory. -/
def osWalk (fs : FS) (root : String) : List (String × List String × List String) :=
  osWalkAux fs (fs.dirs.length + 1) root

/-! ## `generate_files` -/

/-- The walk's directory loop: for every subdirectory name `d` of the
current `root`, `render_and_create_dir(os.path.join(project_dir, root, d),
context, output_dir)` (the rendered result is discarded). -/
def createDirs (fs : FS) (project_dir root : String) (ds : List String)
    (ctx : Ctx) (output_dir : String) : FS × Except PyErr Unit :=
  match ds with
  | [] => (fs, .ok ())
  | d :: rest =>
      match render_and_create_dir fs (joinPath project_dir (joinPath root d))
          ctx output_dir with
      | (fs', .error e) => (fs', .error e)
      | (fs', .ok _) => createDirs fs' project_dir root rest ctx output_dir

/-- The walk's file loop: for every file name `f` of the current `root`,
`generate_file(project_dir, os.path.join(root, f), context, env)`. -/
def genWalkFiles (fs : FS) (project_dir root : String) (fls : List String)
    (ctx : Ctx) : FS × Except PyErr Unit :=
  match fls with
  | [] => (fs, .ok ())
  | f :: rest =>
      match generate_file fs project_dir (joinPath root f) ctx with
      | (fs', .error e) => (fs', .error e)
      | (fs', .ok ()) => genWalkFiles fs' project_dir root rest ctx

/-- Process the walk's triples in order: for each `(root, dirs, files)`,
create the rendered subdirectories, then materialize the files. -/
def processTriples (fs : FS) (triples : List (String × List String × List String))
    (project_dir : String) (ctx : Ctx) (output_dir : String) :
    FS × Except PyErr Unit :=
  match triples with
  | [] => (fs, .ok ())
  | (root, ds, fls) :: rest =>
      match createDirs fs project_dir root ds ctx output_dir with
      | (fs1, .error e) => (fs1, .error e)
      | (fs1, .ok ()) =>
          match genWalkFiles fs1 project_dir root fls ctx with
          | (fs2, .error e) => (fs2, .error e)
          | (fs2, .ok ()) => processTriples fs2 rest project_dir ctx output_dir

/-- The `with work_in(template_dir)` block of `generate_files`: change
into the template directory, walk `"."`, process every triple, and
restore the working directory on every exit path (the guaranteed release
of the scoped chdir).  The triples are computed from the state at entry;
the generated output lives under the absolute `project_dir`, outside the
walked template tree. -/
def walkGenerate (fs : FS) (template_dir project_dir : String) (ctx : Ctx)
    (output_dir : String) : FS × Except PyErr Unit :=
  let tdAbs := abspathStr fs.cwd template_dir
  let fsIn : FS := { fs with cwd := tdAbs }
  match processTriples fsIn (osWalk fsIn ".") project_dir ctx output_dir with
  | (fs', r) => ({ fs' with cwd := fs.cwd }, r)

/-- `generate_files(repo_dir, context=None, output_dir=".")`: locate the
template directory, validate that its basename is templated, render and
create the project root, make it absolute, run the pre-generation hook
from `repo_dir`, walk the template tree creating directories and
materializing files, and run the post-generation hook.  The Python
function body contains no `return` statement, so a successful run
returns `None` (`Option.none` here) alongside the final filesystem. -/
def generate_files (fs : FS) (repo_dir : String) (context : Option Ctx)
    (output_dir : String) : FS × Except PyErr (Option String) :=
  match find_template fs repo_dir with
  | .error e => (fs, .error e)
  | .ok template_dir =>
      let ctx := context.getD []
      let unrendered_dir := basename template_dir
      match ensure_dir_is_templated unrendered_dir with
      | .error e => (fs, .error e)
      | .ok () =>
          match render_and_create_dir fs unrendered_dir ctx output_dir with
          | (fs1, .error e) => (fs1, .error e)
          | (fs1, .ok project_dir0) =>
              let project_dir := abspathStr fs1.cwd project_dir0
              match run_hook fs1 repo_dir "pre_gen_project" with
              | .error e => (fs1, .error e)
              | .ok () =>
                  match walkGenerate fs1 template_dir project_dir ctx output_dir with
                  | (fs2, .error e) => (fs2, .error e)
                  | (fs2, .ok ()) =>
                      match run_hook fs2 repo_dir "post_gen_project" with
                      | .error e => (fs2, .error e)
                      | .ok () => (fs2, .ok none)

/-! ## Concrete filesystems used by witnesses and counterexamples -/

/-- A repository at `/repo` whose templated root `\x7b\x7bproject_name\x7d\x7d`
holds a templated text file, a binary file and a subdirectory with a
further text file; the working directory is `/work`; no hook scripts. -/
def demoRepoFS : FS := {
  cwd := "/work"
  dirs := ["/work", "/repo", "/repo/\x7b\x7bproject_name\x7d\x7d",
           "/repo/\x7b\x7bproject_name\x7d\x7d/docs"]
  files := [("/repo/\x7b\x7bproject_name\x7d\x7d/README.md",
             ⟨"# \x7b\x7b project_name \x7d\x7d\n", 420⟩),
            ("/repo/\x7b\x7bproject_name\x7d\x7d/logo.png",
             ⟨"\x00PNG\x7b\x7bnot a var\x7d\x7d", 493⟩),
            ("/repo/\x7b\x7bproject_name\x7d\x7d/docs/index.md",
             ⟨"docs for \x7b\x7bproject_name\x7d\x7d", 420⟩)]
  hookExit := [] }

/-- The context `\x7b"project_name": "demo"\x7d`. -/
def demoContext : Ctx := [("project_name", Value.str "demo")]

/-- `demoRepoFS` with a pre-generation hook script that exits with
status 1. -/
def hookFailFS : FS :=
  { demoRepoFS with hookExit := [("/repo/pre_gen_project", 1)] }

/-- A repository whose only child directory is the untemplated
`plainname`. -/
def plainRepoFS : FS := {
  cwd := "/work"
  dirs := ["/work", "/repo", "/repo/plainname"]
  files := [("/repo/plainname/a.txt", ⟨"a", 420⟩)]
  hookExit := [] }

/-- A working directory holding a two-key `cookiecutter.json`. -/
def jsonCtxFS : FS := {
  cwd := "/work"
  dirs := ["/work"]
  files := [("/work/cookiecutter.json", ⟨"\x7b\"a\": \"x\", \"b\": \"z\"\x7d", 420⟩)]
  hookExit := [] }

/-- A working directory holding only a `cookiecutter.yml`. -/
def yamlCtxFS : FS := {
  cwd := "/work"
  dirs := ["/work"]
  files := [("/work/cookiecutter.yml", ⟨"greeting: hello", 420⟩)]
  hookExit := [] }

/-- A working directory with no files at all. -/
def emptyWorkFS : FS := { cwd := "/work", dirs := ["/work"], files := [], hookExit := [] }

/-- A working directory holding a `cookiecutter.txt` whose content parses
under neither supported format. -/
def txtCtxFS : FS := {
  cwd := "/work"
  dirs := ["/work"]
  files := [("/work/cookiecutter.txt", ⟨"this is not json \x7b", 420⟩)]
  hookExit := [] }

/-- A template working directory `/t` (three input files: a marker-free
text file ending in a newline, a text file referencing an absent
variable, and a binary file whose bytes resemble markers) next to an
output directory `/out`. -/
def matFS : FS := {
  cwd := "/t"
  dirs := ["/t", "/out"]
  files := [("/t/f.txt", ⟨"hi\n", 420⟩),
            ("/t/g.txt", ⟨"x\x7b\x7bfoo\x7d\x7d", 420⟩),
            ("/t/logo.png", ⟨"\x00DATA\x7b\x7bfoo\x7d\x7d", 493⟩)]
  hookExit := [] }

/-! ## Helper lemmas: ordered-mapping update -/

theorem lookup_setKey_self {α : Type} (C : List (String × α)) (k : String) (v : α) :
    lookupKey (setKey C k v) k = some v := by
  induction C with
  | nil => simp [setKey, lookupKey]
  | cons kv rest ih =>
      obtain ⟨k', v'⟩ := kv
      by_cases h : k' = k
      · simp [setKey, h, lookupKey]
      · simp [setKey, h, lookupKey, ih]

theorem lookup_setKey_ne {α : Type} (C : List (String × α)) (k' k : String) (v : α)
    (h : k' ≠ k) : lookupKey (setKey C k' v) k = lookupKey C k := by
  induction C with
  | nil => simp [setKey, lookupKey, h]
  | cons kv rest ih =>
      obtain ⟨q, w⟩ := kv
      by_cases hq : q = k'
      · simp [setKey, hq, lookupKey, h]
      · simp [setKey, hq, lookupKey, ih]

theorem lookup_updateDict_not_mem {α : Type} (O : List (String × α))
    (C : List (String × α)) (k : String) (h : lookupKey O k = none) :
    lookupKey (updateDict C O) k = lookupKey C k := by
  induction O generalizing C with
  | nil => simp [updateDict]
  | cons kv rest ih =>
      obtain ⟨k', v'⟩ := kv
      have hk : k' ≠ k := by
        intro hEq
        simp [lookupKey, hEq] at h
      have hrest : lookupKey rest k = none := by
        simpa [lookupKey, hk] using h
      have : updateDict C ((k', v') :: rest) = updateDict (setKey C k' v') rest := by
        simp [updateDict, List.foldl_cons]
      rw [this, ih (setKey C k' v') hrest, lookup_setKey_ne C k' k v' hk]

theorem mem_keys_of_lookup_isSome {α : Type} (l : List (String × α)) (k : String)
    (h : (lookupKey l k).isSome = true) : k ∈ l.map Prod.fst := by
  induction l with
  | nil => simp [lookupKey] at h
  | cons kv rest ih =>
      obtain ⟨q, w⟩ := kv
      by_cases hq : q = k
      · simp [hq]
      · simp [lookupKey, hq] at h
        simpa [hq] using Or.inr (ih h)

theorem lookup_none_of_not_mem_keys {α : Type} (l : List (String × α)) (k : String)
    (h : k ∉ l.map Prod.fst) : lookupKey l k = none := by
  cases hl : lookupKey l k with
  | none => rfl
  | some v =>
      exact absurd (mem_keys_of_lookup_isSome l k (by simp [hl])) h

theorem lookup_updateDict {α : Type} (O : List (String × α)) (C : List (String × α))
    (k : String) (hnd : (O.map Prod.fst).Nodup) (h : (lookupKey O k).isSome = true) :
    lookupKey (updateDict C O) k = lookupKey O k := by
  induction O generalizing C with
  | nil => simp [lookupKey] at h
  | cons kv rest ih =>
      obtain ⟨k', v'⟩ := kv
      have hstep : updateDict C ((k', v') :: rest) = updateDict (setKey C k' v') rest := by
        simp [updateDict, List.foldl_cons]
      have hnd' : (rest.map Prod.fst).Nodup := (List.nodup_cons.mp hnd).2
      have hk'nm : k' ∉ rest.map Prod.fst := (List.nodup_cons.mp hnd).1
      by_cases hk : k' = k
      · subst hk
        have hrest : lookupKey rest k' = none :=
          lookup_none_of_not_mem_keys rest k' hk'nm
        rw [hstep, lookup_updateDict_not_mem rest (setKey C k' v') k' hrest,
          lookup_setKey_self]
        simp [lookupKey]
      · have hrest : (lookupKey rest k).isSome = true := by
          simpa [lookupKey, hk] using h
        rw [hstep, ih (setKey C k' v') hnd' hrest]
        simp [lookupKey, hk]

theorem setKey_eq_append {α : Type} (C : List (String × α)) (k : String) (v : α)
    (h : lookupKey C k = none) : setKey C k v = C ++ [(k, v)] := by
  induction C with
  | nil => simp [setKey]
  | cons kv rest ih =>
      obtain ⟨q, w⟩ := kv
      have hq : q ≠ k := by
        intro hEq
        simp [lookupKey, hEq] at h
      have hrest : lookupKey rest k = none := by simpa [lookupKey, hq] using h
      simp [setKey, hq, ih hrest]

theorem lookupKey_append_none {α : Type} (l₁ l₂ : List (String × α)) (k : String)
    (h : lookupKey l₁ k = none) : lookupKey (l₁ ++ l₂) k = lookupKey l₂ k := by
  induction l₁ with
  | nil => simp
  | cons kv rest ih =>
      obtain ⟨q, w⟩ := kv
      have hq : q ≠ k := by
        intro hEq
        simp [lookupKey, hEq] at h
      have hrest : lookupKey rest k = none := by simpa [lookupKey, hq] using h
      simp [lookupKey, hq, ih hrest]

theorem updateDict_disjoint_append {α : Type} (O : List (String × α)) :
    ∀ C : List (String × α), (O.map Prod.fst).Nodup →
    (∀ k, (lookupKey O k).isSome = true → lookupKey C k = none) →
    updateDict C O = C ++ O := by
  induction O with
  | nil => intro C _ _; simp [updateDict]
  | cons kv rest ih =>
      intro C hnd hdisj
      obtain ⟨k, v⟩ := kv
      have hnd' : (rest.map Prod.fst).Nodup := (List.nodup_cons.mp hnd).2
      have hknm : k ∉ rest.map Prod.fst := (List.nodup_cons.mp hnd).1
      have hCk : lookupKey C k = none := by
        apply hdisj
        simp [lookupKey]
      have hstep : updateDict C ((k, v) :: rest) = updateDict (setKey C k v) rest := by
        simp [updateDict, List.foldl_cons]
      rw [hstep, setKey_eq_append C k v hCk]
      have hdisj' : ∀ q, (lookupKey rest q).isSome = true →
          lookupKey (C ++ [(k, v)]) q = none := by
        intro q hq
        have hqk : q ≠ k := by
          intro hEq
          subst hEq
          exact hknm (mem_keys_of_lookup_isSome rest q hq)
        have hkq : ¬ (k = q) := fun hEq => hqk hEq.symm
        have hCq : lookupKey C q = none := by
          apply hdisj
          simp [lookupKey, hkq, hq]
        rw [lookupKey_append_none C [(k, v)] q hCq]
        simp [lookupKey, hkq]
      rw [ih (C ++ [(k, v)]) hnd' hdisj']
      simp

theorem updateDict_nil {α : Type} (O : List (String × α))
    (hnd : (O.map Prod.fst).Nodup) : updateDict [] O = O := by
  have := updateDict_disjoint_append O [] hnd (fun k _ => by simp [lookupKey])
  simpa using this

/-! ## Helper lemmas: directory creation -/

theorem addDir_files (fs : FS) (d : String) : (addDir fs d).files = fs.files := by
  unfold addDir
  split <;> rfl

theorem addDir_hookExit (fs : FS) (d : String) :
    (addDir fs d).hookExit = fs.hookExit := by
  unfold addDir
  split <;> rfl

theorem addDir_cwd (fs : FS) (d : String) : (addDir fs d).cwd = fs.cwd := by
  unfold addDir
  split <;> rfl

theorem foldl_addDir_files (l : List String) :
    ∀ fs : FS, (l.foldl addDir fs).files = fs.files := by
  induction l with
  | nil => intro fs; rfl
  | cons x rest ih => intro fs; rw [List.foldl_cons, ih, addDir_files]

theorem foldl_addDir_hookExit (l : List String) :
    ∀ fs : FS, (l.foldl addDir fs).hookExit = fs.hookExit := by
  induction l with
  | nil => intro fs; rfl
  | cons x rest ih => intro fs; rw [List.foldl_cons, ih, addDir_hookExit]

theorem foldl_addDir_cwd (l : List String) :
    ∀ fs : FS, (l.foldl addDir fs).cwd = fs.cwd := by
  induction l with
  | nil => intro fs; rfl
  | cons x rest ih => intro fs; rw [List.foldl_cons, ih, addDir_cwd]

theorem mem_dirs_addDir_mono (fs : FS) (x a : String) (h : a ∈ fs.dirs) :
    a ∈ (addDir fs x).dirs := by
  unfold addDir
  split
  · exact h
  · simp [h]

theorem mem_dirs_addDir_self (fs : FS) (x : String) : x ∈ (addDir fs x).dirs := by
  unfold addDir
  split
  · next h => simpa using h
  · simp

theorem mem_dirs_foldl_addDir_mono (l : List String) :
    ∀ (fs : FS) (a : String), a ∈ fs.dirs → a ∈ (l.foldl addDir fs).dirs := by
  induction l with
  | nil => intro fs a h; exact h
  | cons x rest ih =>
      intro fs a h
      rw [List.foldl_cons]
      exact ih (addDir fs x) a (mem_dirs_addDir_mono fs x a h)

theorem mem_dirs_foldl_addDir_of_mem (l : List String) :
    ∀ (fs : FS) (a : String), a ∈ l → a ∈ (l.foldl addDir fs).dirs := by
  induction l with
  | nil => intro fs a h; simp at h
  | cons x rest ih =>
      intro fs a h
      rw [List.foldl_cons]
      rcases List.mem_cons.mp h with h | h
      · subst h
        exact mem_dirs_foldl_addDir_mono rest (addDir fs a) a
          (mem_dirs_addDir_self fs a)
      · exact ih (addDir fs x) a h

theorem mem_of_mem_dirs_foldl_addDir (l : List String) :
    ∀ (fs : FS) (d : String), d ∈ (l.foldl addDir fs).dirs →
    d ∈ fs.dirs ∨ d ∈ l := by
  induction l with
  | nil => intro fs d h; exact Or.inl h
  | cons x rest ih =>
      intro fs d h
      rw [List.foldl_cons] at h
      rcases ih (addDir fs x) d h with h' | h'
      · unfold addDir at h'
        split at h'
        · exact Or.inl h'
        · rcases List.mem_append.mp h' with h'' | h''
          · exact Or.inl h''
          · simp at h''
            subst h''
            simp
      · simp [h']

theorem msp_files (fs : FS) (d : String) :
    (make_sure_path_exists fs d).files = fs.files :=
  foldl_addDir_files (ancestorPaths (abspathStr fs.cwd d)) fs

theorem msp_hookExit (fs : FS) (d : String) :
    (make_sure_path_exists fs d).hookExit = fs.hookExit :=
  foldl_addDir_hookExit (ancestorPaths (abspathStr fs.cwd d)) fs

theorem msp_cwd (fs : FS) (d : String) :
    (make_sure_path_exists fs d).cwd = fs.cwd :=
  foldl_addDir_cwd (ancestorPaths (abspathStr fs.cwd d)) fs

theorem msp_creates_ancestors (fs : FS) (d : String) :
    ∀ a ∈ ancestorPaths (abspathStr fs.cwd d), a ∈ (make_sure_path_exists fs d).dirs :=
  fun a ha => mem_dirs_foldl_addDir_of_mem _ fs a ha

theorem msp_new_dirs_are_ancestors (fs : FS) (d : String) :
    ∀ p ∈ (make_sure_path_exists fs d).dirs, p ∉ fs.dirs →
    p ∈ ancestorPaths (abspathStr fs.cwd d) := by
  intro p hp hnot
  rcases mem_of_mem_dirs_foldl_addDir _ fs p hp with h | h
  · exact absurd h hnot
  · exact h

/-! ## Helper lemmas: file writes -/

theorem lookup_setFileEntry_ne (l : List (String × FileData)) (p q : String)
    (c : String) (h : q ≠ p) :
    lookupKey (setFileEntry l p c) q = lookupKey l q := by
  induction l with
  | nil => simp [setFileEntry, lookupKey, Ne.symm h]
  | cons e rest ih =>
      obtain ⟨r, d⟩ := e
      by_cases hr : r = p
      · subst hr
        simp [setFileEntry, lookupKey, Ne.symm h]
      · simp [setFileEntry, hr, lookupKey, ih]

theorem lookup_setFileEntry_of_lookup (l : List (String × FileData)) (p : String)
    (c : String) (d : FileData) (h : lookupKey l p = some d) :
    lookupKey (setFileEntry l p c) p = some ⟨c, d.mode⟩ := by
  induction l with
  | nil => simp [lookupKey] at h
  | cons e rest ih =>
      obtain ⟨r, d'⟩ := e
      by_cases hr : r = p
      · subst hr
        simp [lookupKey] at h
        subst h
        simp [setFileEntry, lookupKey]
      · simp [lookupKey, hr] at h
        simp [setFileEntry, hr, lookupKey, ih h]

theorem lookup_setFileEntry_self (l : List (String × FileData)) (p : String)
    (c : String) :
    lookupKey (setFileEntry l p c) p =
      some ⟨c, ((lookupKey l p).map FileData.mode).getD 420⟩ := by
  induction l with
  | nil => simp [setFileEntry, lookupKey]
  | cons e rest ih =>
      obtain ⟨r, d⟩ := e
      by_cases hr : r = p
      · subst hr
        simp [setFileEntry, lookupKey]
      · simp [setFileEntry, hr, lookupKey, ih]

theorem lookup_setMode_setFile_self (l : List (String × FileData)) (p : String)
    (c : String) (m : Nat) :
    lookupKey (setModeEntry (setFileEntry l p c) p m) p = some ⟨c, m⟩ := by
  induction l with
  | nil => simp [setFileEntry, setModeEntry, lookupKey]
  | cons e rest ih =>
      obtain ⟨r, d⟩ := e
      by_cases hr : r = p
      · subst hr
        simp [setFileEntry, setModeEntry, lookupKey]
      · simp [setFileEntry, hr, setModeEntry, lookupKey, ih]

/-! ## Helper lemmas: render service -/

theorem splitVar_append_close (xs : List Char) :
    ∀ rest : List Char, '}' ∉ xs →
    splitVar (xs ++ '}' :: '}' :: rest) = some (xs, rest) := by
  induction xs with
  | nil => intro rest _; simp [splitVar]
  | cons x tail ih =>
      intro rest h
      have hx : x ≠ '}' := by
        intro hEq
        exact h (by simp [hEq])
      have htail : '}' ∉ tail := fun hm => h (by simp [hm])
      simp [splitVar, hx, ih rest htail]

theorem stripNL_of_getLast_ne (cs : List Char) (h : cs.getLast? ≠ some '\n') :
    stripNL cs = cs := by
  unfold stripNL
  simp [h]

/-! ## Claim C3 (corrected)

The claim says a missing/unparseable context source fails with the
unified `ContextLoadError`.  The source has no such error class: `open`
raises the underlying IO error, a `.json` parse failure raises the JSON
error without ever attempting YAML, and an unrecognized extension does
not fail at all (claim C9).  The amended statement proves the
missing-file behaviour. -/

/-- Claim C3, counterexample: with an empty working directory, loading
the default `cookiecutter.json` fails with the underlying file-not-found
IO error, which is not the spec's `ContextLoadError`. -/
theorem generate_context_missing_file_not_contextloaderror :
    generate_context emptyWorkFS (some "cookiecutter.json") [] =
      .error (.fileNotFound "cookiecutter.json") ∧
    PyErr.fileNotFound "cookiecutter.json" ≠ PyErr.contextLoadError :=
  ⟨rfl, by decide⟩

/-- Claim C3, amended: for every call to `generate_context` where the
context source file is missing and the `cookiecutter.yml` fallback is
also absent, the call fails with the underlying file-not-found IO error
(not a unified `ContextLoadError`, which the code does not define) and
no context is returned. -/
theorem generate_context_missing_file_io_error (fs : FS) (cf : String) (o : Ctx)
    (h1 : fsExists fs cf = false) (h2 : fsExists fs "cookiecutter.yml" = false) :
    generate_context fs (some cf) o = .error (.fileNotFound cf) := by
  have hrd : readFile fs (abspathStr fs.cwd cf) = none := by
    unfold fsExists at h1
    simp only [Bool.or_eq_false_iff] at h1
    unfold readFile
    cases hl : lookupKey fs.files (abspathStr fs.cwd cf) with
    | none => rfl
    | some v => rw [hl] at h1; simp at h1
  simp [generate_context, h1, h2, loadRaw, hrd]

/-- Witness for the amended C3 theorem at a concrete filesystem. -/
theorem generate_context_missing_file_io_error_witness :
    generate_context emptyWorkFS (some "nope.json") [] =
      .error (.fileNotFound "nope.json") :=
  generate_context_missing_file_io_error emptyWorkFS "nope.json" [] rfl rfl

/-! ## Claim C6 (confirmed): overlay precedence -/

/-- Claim C6: for every loaded context and every overlay sharing key `k`
(overlays are Python dicts, hence have distinct keys), the context
returned by `generate_context` holds the overlay's whole value at `k` —
per-key shallow replacement by `dict.update`, never a deep merge. -/
theorem generate_context_overlay_precedence (fs : FS) (cfOpt : Option String)
    (o : Ctx) (k : String) (r : Ctx)
    (hS : generate_context fs cfOpt o = .ok r)
    (hk : (lookupKey o k).isSome = true)
    (hnd : (o.map Prod.fst).Nodup) :
    lookupKey r k = lookupKey o k := by
  cases o with
  | nil => simp [lookupKey] at hk
  | cons kv rest =>
      unfold generate_context at hS
      simp only [List.isEmpty_cons, Bool.false_eq_true, if_false] at hS
      split at hS
      · simp at hS
      · rename_i context heq
        injection hS with h'
        rw [← h']
        exact lookup_updateDict (kv :: rest) context k hnd hk

/-- Witness for C6: a two-key `cookiecutter.json` overlaid at key `a`
yields the overlay's value at `a`. -/
theorem generate_context_overlay_precedence_witness :
    lookupKey [("a", Value.str "y"), ("b", Value.str "z")] "a" =
      lookupKey [("a", Value.str "y")] "a" :=
  generate_context_overlay_precedence jsonCtxFS none [("a", Value.str "y")] "a"
    [("a", Value.str "y"), ("b", Value.str "z")] rfl rfl (by decide)

/-! ## Claim C9 (confirmed): unrecognized extension silently ignored -/

/-- Claim C9: when the resolved context file exists but its extension is
neither `.json` nor `.yml`, its contents are never parsed and no error is
raised: the returned context is exactly the overlay (the empty mapping
without an overlay). -/
theorem generate_context_unknown_extension_ignored (fs : FS) (cf : String)
    (o : Ctx) (fd : FileData)
    (h1 : lookupKey fs.files (abspathStr fs.cwd cf) = some fd)
    (h2 : (splitextName (basename cf)).2 ≠ ".json")
    (h3 : (splitextName (basename cf)).2 ≠ ".yml")
    (hnd : (o.map Prod.fst).Nodup) :
    generate_context fs (some cf) o = .ok o := by
  have hex : fsExists fs cf = true := by
    unfold fsExists
    simp [h1]
  have hload : loadRaw fs cf = .ok [] := by
    unfold loadRaw readFile
    rw [h1]
    simp [h2, h3]
  cases o with
  | nil => simp [generate_context, hex, hload]
  | cons kv rest =>
      simp [generate_context, hex, hload, updateDict_nil (kv :: rest) hnd]

/-- Witness for C9: an existing `cookiecutter.txt` with unparseable
content is ignored and the overlay comes back verbatim. -/
theorem generate_context_unknown_extension_ignored_witness :
    generate_context txtCtxFS (some "cookiecutter.txt") [("x", Value.str "1")] =
      .ok [("x", Value.str "1")] :=
  generate_context_unknown_extension_ignored txtCtxFS "cookiecutter.txt"
    [("x", Value.str "1")] ⟨"this is not json \x7b", 420⟩ rfl (by decide) (by decide)
    (by decide)

/-! ## Claim C10 (confirmed): the YAML fallback applies to explicit paths -/

/-- Claim C10: when the explicitly supplied context file does not exist
but `cookiecutter.yml` exists in the working directory, `generate_context`
behaves exactly as if `cookiecutter.yml` had been requested — the
fallback is not restricted to the omitted-argument case. -/
theorem generate_context_yml_fallback_explicit_path (fs : FS) (p : String) (o : Ctx)
    (h1 : fsExists fs p = false) (h2 : fsExists fs "cookiecutter.yml" = true) :
    generate_context fs (some p) o = generate_context fs (some "cookiecutter.yml") o := by
  simp [generate_context, h1, h2]

/-- Witness for C10: an explicitly named missing file falls back to the
present `cookiecutter.yml`, whose parsed mapping is returned. -/
theorem generate_context_yml_fallback_explicit_path_witness :
    (generate_context yamlCtxFS (some "missing.json") [] =
       generate_context yamlCtxFS (some "cookiecutter.yml") []) ∧
    generate_context yamlCtxFS (some "cookiecutter.yml") [] =
      .ok [("greeting", Value.str "hello")] :=
  ⟨generate_context_yml_fallback_explicit_path yamlCtxFS "missing.json" [] rfl rfl,
   rfl⟩

/-! ## Claim C2 (corrected): missing variables do not raise -/

theorem renderAux_single_var (ctx : Ctx) (name : List Char) (fuel : Nat)
    (h : '}' ∉ name) :
    renderAux ctx (fuel + 1) ('{' :: '{' :: (name ++ ['}', '}'])) =
      .ok (match lookupKey ctx (String.mk (trimL name)) with
           | some v => (valueToString v).data
           | none => []) := by
  have hsv : splitVar (name ++ '}' :: '}' :: []) = some (name, []) :=
    splitVar_append_close name [] h
  simp only [renderAux]
  rw [show (name ++ ['}', '}']) = name ++ '}' :: '}' :: [] from rfl, hsv]
  simp [renderAux]

/-- Claim C2, counterexample: materializing a text file whose content
references the absent variable `foo` succeeds — no unresolved-variable
error is raised; the reference is silently replaced by the empty string
(input `"x\x7b\x7bfoo\x7d\x7d"` becomes output `"x"`). -/
theorem generate_file_missing_variable_no_error :
    (generate_file matFS "/out" "g.txt" []).2 = .ok () ∧
    readFile (generate_file matFS "/out" "g.txt" []).1 "/out/g.txt" =
      some ⟨"x", 420⟩ :=
  ⟨rfl, rfl⟩

/-- Claim C2, amended: a path or content template that references a
variable absent from the context does not fail; the render service (the
jinja2 default `Environment`, whose default `Undefined` the code never
overrides) substitutes the empty string for the unresolved reference.
Only template-syntax errors are raised and propagated. -/
theorem render_missing_variable_empty (ctx : Ctx) (v : String)
    (h1 : lookupKey ctx (String.mk (trimL v.data)) = none)
    (h2 : '}' ∉ v.data) :
    render ctx ("\x7b\x7b" ++ v ++ "\x7d\x7d") = .ok "" := by
  have hdata : ("\x7b\x7b" ++ v ++ "\x7d\x7d").data =
      '{' :: '{' :: (v.data ++ ['}', '}']) := by
    simp [String.data_append]
  have hlast : ('{' :: '{' :: (v.data ++ ['}', '}'])).getLast? ≠ some '\n' := by
    rw [show '{' :: '{' :: (v.data ++ ['}', '}']) =
        ('{' :: '{' :: (v.data ++ ['}'])) ++ ['}'] by simp, List.getLast?_concat]
    simp
  simp only [render, hdata, stripNL_of_getLast_ne _ hlast, List.length_cons]
  rw [renderAux_single_var ctx v.data ((v.data ++ ['}', '}']).length + 1) h2, h1]

/-- Witness for the amended C2 theorem: rendering `\x7b\x7bfoo\x7d\x7d` under the
empty context yields the empty string, not an error. -/
theorem render_missing_variable_empty_witness :
    render [] ("\x7b\x7b" ++ "foo" ++ "\x7d\x7d") = .ok "" :=
  render_missing_variable_empty [] "foo" rfl (by decide)

/-! ## Claim C4 (code_bug): text round-trip loses a trailing newline

The claim (and spec §8.5) require a marker-free text file to come back
byte-identical.  The render service the code configures (jinja2 default
`Environment`, `keep_trailing_newline = False`) strips one trailing
newline from every rendered text file, so the round-trip fails exactly on
inputs ending in a newline; permission bits do match.  Later cookiecutter
releases fix precisely this by enabling `keep_trailing_newline`. -/

/-- Claim C4, evaluation at the failing input: the marker-free text file
`f.txt` with content `"hi\n"` materializes successfully, but the output
content is `"hi"` — not byte-identical to the input (the permission bits
`420` do match). -/
theorem generate_file_text_strips_trailing_newline :
    (generate_file matFS "/out" "f.txt" []).2 = .ok () ∧
    readFile (generate_file matFS "/out" "f.txt" []).1 "/out/f.txt" =
      some ⟨"hi", 420⟩ ∧
    "hi" ≠ "hi\n" :=
  ⟨rfl, rfl, by decide⟩

/-! ## Claim C5 (confirmed): binary fidelity -/

/-- Claim C5: a file classified as binary by content inspection is copied
byte-for-byte to the rendered output path with no substitution (no
hypothesis restricts its bytes, which may resemble template markers), and
the output file ends up with the input's permission bits. -/
theorem generate_file_binary_copy (fs : FS) (pd infile : String) (ctx : Ctx)
    (fd : FileData) (out : String)
    (h1 : render ctx infile = .ok out)
    (h2 : readFile fs (abspathStr fs.cwd infile) = some fd)
    (h3 : is_binary fd.content = true)
    (h4 : dirExistsFS fs (parentDir (abspathStr fs.cwd (joinPath pd out))) = true) :
    (generate_file fs pd infile ctx).2 = .ok () ∧
    readFile (generate_file fs pd infile ctx).1
        (abspathStr fs.cwd (joinPath pd out)) = some ⟨fd.content, fd.mode⟩ := by
  have hwrite : writeFileFS fs (abspathStr fs.cwd (joinPath pd out)) fd.content =
      .ok { fs with
        files := setFileEntry fs.files (abspathStr fs.cwd (joinPath pd out)) fd.content } := by
    unfold writeFileFS
    rw [h4]
    simp
  simp only [readFile] at h2
  have hcm : copymodeFS
      { fs with
        files := setFileEntry fs.files (abspathStr fs.cwd (joinPath pd out)) fd.content }
      (abspathStr fs.cwd infile) (abspathStr fs.cwd (joinPath pd out)) =
      .ok { fs with
        files := setModeEntry
          (setFileEntry fs.files (abspathStr fs.cwd (joinPath pd out)) fd.content)
          (abspathStr fs.cwd (joinPath pd out)) fd.mode } := by
    unfold copymodeFS
    by_cases hpq : abspathStr fs.cwd infile = abspathStr fs.cwd (joinPath pd out)
    · rw [hpq]
      simp only [lookup_setFileEntry_of_lookup fs.files _ fd.content fd (hpq ▸ h2)]
    · simp only [lookup_setFileEntry_ne fs.files _ _ fd.content hpq, h2,
        lookup_setFileEntry_self]
  simp only [generate_file, h1, readFile, h2, h3, if_true, hwrite, hcm]
  exact ⟨trivial, lookup_setMode_setFile_self fs.files _ fd.content fd.mode⟩

/-- Witness for C5 at a concrete binary file whose bytes contain
template markers. -/
theorem generate_file_binary_copy_witness :
    (generate_file matFS "/out" "logo.png" []).2 = .ok () ∧
    readFile (generate_file matFS "/out" "logo.png" []).1 "/out/logo.png" =
      some ⟨"\x00DATA\x7b\x7bfoo\x7d\x7d", 493⟩ :=
  generate_file_binary_copy matFS "/out" "logo.png" []
    ⟨"\x00DATA\x7b\x7bfoo\x7d\x7d", 493⟩ "logo.png" rfl rfl rfl rfl

/-! ## Claim C1 (corrected): `generate_files` returns `None`

The spec requires the absolute project directory path to be returned;
the Python function body computes that absolute path but contains no
`return` statement, so every successful call returns `None`. -/

theorem generate_files_ok_eq_none (fs : FS) (repo : String) (c : Option Ctx)
    (out : String) (fs' : FS) (v : Option String)
    (h : generate_files fs repo c out = (fs', .ok v)) : v = none := by
  simp only [generate_files] at h
  repeat' split at h
  all_goals simp_all

/-- Claim C1, counterexample: a fully successful generation run over a
valid templated repository returns a value that is not a path — the
mapped result shows the run succeeded (`.ok`) with `Option.isSome` of
the returned value being `false` (`None`), not the absolute project
directory path the claim requires. -/
theorem generate_files_no_path_returned :
    Except.map Option.isSome (generate_files demoRepoFS "/repo" (some demoContext) ".").2 =
      .ok false := rfl

/-- Claim C1, amended: every successful run of `generate_files` returns
`None` (the function has no `return` statement); the absolute project
directory path is computed internally but never returned to the
caller. -/
theorem generate_files_returns_none (fs : FS) (repo : String) (c : Option Ctx)
    (out : String) (h : exIsOk (generate_files fs repo c out).2 = true) :
    (generate_files fs repo c out).2 = .ok none := by
  cases hr : (generate_files fs repo c out).2 with
  | error e => rw [hr] at h; simp [exIsOk] at h
  | ok v =>
      have hpair : generate_files fs repo c out =
          ((generate_files fs repo c out).1, .ok v) := by
        rw [← hr]
      have hv := generate_files_ok_eq_none fs repo c out
        (generate_files fs repo c out).1 v hpair
      rw [hv]

/-- Witness for the amended C1 theorem: the demo repository generates
successfully and the call returns `None`. -/
theorem generate_files_returns_none_witness :
    (generate_files demoRepoFS "/repo" (some demoContext) ".").2 = .ok none :=
  generate_files_returns_none demoRepoFS "/repo" (some demoContext) "." rfl

/-! ## Claim C7 (confirmed): untemplated root rejected before any output -/

/-- Claim C7: when the template-root candidate's basename lacks the `\x7b\x7b`
or `\x7d\x7d` marker, `generate_files` fails with the non-templated-input
error and the filesystem is returned completely unchanged — no output
directory (or anything else) is created. -/
theorem generate_files_untemplated_root_rejected (fs : FS) (repo : String)
    (c : Option Ctx) (out td : String)
    (h1 : find_template fs repo = .ok td)
    (h2 : (hasSubstr "\x7b\x7b" (basename td) && hasSubstr "\x7d\x7d" (basename td)) = false) :
    generate_files fs repo c out = (fs, .error .nonTemplatedInputDir) := by
  simp [generate_files, h1, ensure_dir_is_templated, h2]

/-- Witness for C7: a repository whose only root subdirectory is
`plainname` is rejected with the filesystem untouched. -/
theorem generate_files_untemplated_root_rejected_witness :
    generate_files plainRepoFS "/repo" none "." =
      (plainRepoFS, .error .nonTemplatedInputDir) :=
  generate_files_untemplated_root_rejected plainRepoFS "/repo" none "."
    "/repo/plainname" rfl rfl

/-! ## Claim C8 (confirmed): pre-hook failure leaves only the empty root -/

/-- Claim C8: when the pre-generation hook exits nonzero, the run aborts
with the hook failure; at that point the project root directory has
already been created (it and its ancestors are in the resulting
directory list), no file has been touched, and the only directories the
run created are the project root and its ancestors — the root is left
empty. -/
theorem generate_files_prehook_failure_leaves_root_empty (fs : FS) (repo : String)
    (c : Option Ctx) (out td rendered : String) (code : Nat)
    (h1 : find_template fs repo = .ok td)
    (h2 : ensure_dir_is_templated (basename td) = .ok ())
    (h3 : render (c.getD []) (basename td) = .ok rendered)
    (h4 : lookupKey fs.hookExit
            (abspathStr fs.cwd (joinPath repo "pre_gen_project")) = some code)
    (h5 : code ≠ 0) :
    generate_files fs repo c out =
      (make_sure_path_exists fs (normpath (joinPath out rendered)),
       .error (.hookFailed "pre_gen_project" code)) ∧
    (make_sure_path_exists fs (normpath (joinPath out rendered))).files = fs.files ∧
    (∀ a ∈ ancestorPaths (abspathStr fs.cwd (normpath (joinPath out rendered))),
       a ∈ (make_sure_path_exists fs (normpath (joinPath out rendered))).dirs) ∧
    (∀ p ∈ (make_sure_path_exists fs (normpath (joinPath out rendered))).dirs,
       p ∉ fs.dirs →
       p ∈ ancestorPaths (abspathStr fs.cwd (normpath (joinPath out rendered)))) := by
  refine ⟨?_, msp_files fs _, msp_creates_ancestors fs _,
    msp_new_dirs_are_ancestors fs _⟩
  simp [generate_files, h1, h2, render_and_create_dir, h3, run_hook,
    msp_hookExit, msp_cwd, h4, h5]

/-- Witness for C8: with a failing pre-generation hook, the demo
repository's run stops with the hook error and the filesystem holds
exactly the freshly created, still-empty project root. -/
theorem generate_files_prehook_failure_leaves_root_empty_witness :
    generate_files hookFailFS "/repo" (some demoContext) "." =
      (make_sure_path_exists hookFailFS (normpath (joinPath "." "demo")),
       .error (.hookFailed "pre_gen_project" 1)) :=
  (generate_files_prehook_failure_leaves_root_empty hookFailFS "/repo"
    (some demoContext) "." "/repo/\x7b\x7bproject_name\x7d\x7d" "demo" 1
    rfl rfl rfl rfl (by decide)).1

end Cookiecutter
